import Mathlib

/-
  Verification of the Sp500Scan frontend (React dashboard).

  Shallow embedding of:
  - frontend/src/components/TopTable.jsx   (filter, slice, table rows)
  - frontend/src/components/TickerDetail.jsx (fetch effect, chart effect, render)
  - App.jsx (the application shell: summary fetch, selection, header)

  JavaScript semantics that the embedding relies on:
  - String.prototype.toLowerCase maps each character to lower case.
  - String.prototype.includes is the contiguous-substring test.
  - Array.prototype.slice(0, e) with integer e takes the first e elements
    when 0 <= e, and drops the last (-e) elements when e < 0; a NaN end
    argument is converted to 0.
  - React useEffect semantics: an effect runs after the first render and
    after any render in which its dependency values changed; before a
    re-run (and at unmount) the cleanup returned by the previous run, if
    any, is invoked.
-/

/- ---------------------------------------------------------------- -/
/- JavaScript string and array primitives used by the components.   -/
/- ---------------------------------------------------------------- -/

/-- Model of String.prototype.toLowerCase as used in TopTable.jsx:
    each character mapped to lower case. -/
def jsToLower (s : String) : String := String.mk (s.toList.map Char.toLower)

/-- Model of String.prototype.includes: sub occurs contiguously in s. -/
def jsIncludes (s sub : String) : Bool := decide (sub.toList <:+: s.toList)

/-- Model of Array.prototype.slice(0, e) for an integer end argument e.
    For non-negative e it takes the first e elements; for negative e it
    keeps all but the last (-e) elements (ECMA relativeEnd rule). -/
def jsSlice0 {α : Type} (l : List α) (e : Int) : List α :=
  if e < 0 then l.take ((l.length : Int) + e).toNat else l.take e.toNat

/-- Model of the ToIntegerOrInfinity coercion applied by slice to its end
    argument, restricted to the values the Top-N input can produce: a NaN
    (none, from a non-numeric input passed through Number) becomes 0. -/
def jsNumToInt : Option Int → Int
  | none => 0
  | some i => i

/- ---------------------------------------------------------------- -/
/- Data model (section 3 of the spec, as consumed by the frontend). -/
/- ---------------------------------------------------------------- -/

/-- One row of the summary artifact top list. The explanation field is
    optional; TopTable.jsx substitutes the empty string when it is absent
    via the expression (it.explanation || ""). -/
structure RankedEntry where
  ticker : String
  score_0_100 : Int
  last_close : Int
  avg_vol20 : Int
  explanation : Option String
deriving DecidableEq, Repr

/-- The summary artifact served at /top_picks.json. -/
structure SummaryArtifact where
  generated_at : String
  top : List RankedEntry
deriving DecidableEq, Repr

/-- One point of the per-ticker history series. -/
structure HistoryPoint where
  Date : String
  Close : Int
deriving DecidableEq, Repr

/-- A JSON scalar stored in the indicators mapping. -/
inductive JsVal
  | num (n : Int)
  | str (s : String)
deriving DecidableEq, Repr

/-- Model of the JavaScript String(v) stringification used for the
    generic indicator listing in TickerDetail.jsx. -/
def jsString : JsVal → String
  | .num n => toString n
  | .str s => s

/-- The per-ticker artifact served at /data/TICKER.json. The history
    field may be absent (TickerDetail.jsx guards on !data.history). -/
structure DetailArtifact where
  history : Option (List HistoryPoint)
  indicators : List (String × JsVal)
deriving DecidableEq, Repr

/- ---------------------------------------------------------------- -/
/- TopTable.jsx: filter and truncation.                             -/
/- ---------------------------------------------------------------- -/

/-- The predicate of the filter call in TopTable.jsx:
    if(!q) return true;
    return (it.ticker + " " + (it.explanation||"")).toLowerCase()
             .includes(q.toLowerCase());  -/
def matchesFilter (q : String) (it : RankedEntry) : Bool :=
  if q = "" then true
  else jsIncludes (jsToLower (it.ticker ++ " " ++ it.explanation.getD ""))
                  (jsToLower q)

/-- The rows surviving the filter stage: (data || []).filter(...). The
    data prop may be absent, modelled as an Option. -/
def filteredRows (data : Option (List RankedEntry)) (q : String) : List RankedEntry :=
  (data.getD []).filter (matchesFilter q)

/-- The rows actually rendered in the table body:
    (data || []).filter(...).slice(0, topN). -/
def shownRows (data : Option (List RankedEntry)) (q : String) (topN : Int) : List RankedEntry :=
  jsSlice0 (filteredRows data q) topN

/-- The rendered rows when the Top-N state holds an arbitrary JavaScript
    number, including NaN produced by Number(nonNumericText). -/
def shownRowsNum (data : Option (List RankedEntry)) (q : String) (topN : Option Int) : List RankedEntry :=
  shownRows data q (jsNumToInt topN)

/- ---------------------------------------------------------------- -/
/- TickerDetail.jsx: fetch effect, state, render.                   -/
/- ---------------------------------------------------------------- -/

/-- JavaScript truthiness of the ticker prop: null and the empty string
    are falsy (the !ticker tests in TickerDetail.jsx). -/
def tickerTruthy : Option String → Bool
  | none => false
  | some t => decide (t ≠ "")

/-- State of one mounted TickerDetail component together with the
    environment bookkeeping needed to speak about in-flight fetches.
    The data field tags the stored artifact with the ticker whose fetch
    produced it; the tag is ghost provenance information, the component
    itself never inspects it. The pending list records issued detail
    fetches that have not yet settled, and log records console.error
    output. -/
structure DetailState where
  ticker : Option String
  data : Option (String × DetailArtifact)
  pending : List String
  log : List String
deriving DecidableEq, Repr

/-- Events acting on a mounted TickerDetail: the parent changes the
    ticker prop, a detail fetch for ticker t resolves with artifact a,
    or a detail fetch for ticker t fails (network error or body that
    does not parse). -/
inductive DetailEvent
  | select (t : Option String)
  | resolve (t : String) (a : DetailArtifact)
  | fail (t : String)
deriving DecidableEq, Repr

/-- Initial state of a freshly mounted TickerDetail (useState(null)). -/
def detailInit : DetailState := ⟨none, none, [], []⟩

/-- One step of the component. On a prop change the fetch effect runs
    only when the ticker value changed (useEffect deps are the one-element
    list holding ticker), and issues a fetch only when the new ticker is
    truthy (the guard if(!ticker) return). The resolution handler is
    setData(j) with no staleness check, exactly as in the source; the
    failure handler only logs. Neither handler touches the ticker, and a
    prop change never clears data. -/
def detailStep (s : DetailState) : DetailEvent → DetailState
  | .select t =>
    if t ≠ s.ticker ∧ tickerTruthy t = true then
      { s with ticker := t, pending := s.pending ++ [t.getD ""] }
    else
      { s with ticker := t }
  | .resolve t a => { s with data := some (t, a), pending := s.pending.erase t }
  | .fail t => { s with pending := s.pending.erase t,
                        log := s.log ++ ["fetch error " ++ t] }

/-- The Loaded display of TickerDetail: heading, the four named indicator
    reads, and the generic stringified listing of every indicator entry. -/
structure LoadedView where
  ticker : String
  score : Option JsVal
  explanation : Option JsVal
  lastClose : Option JsVal
  avgVol : Option JsVal
  listing : List (String × String)
deriving DecidableEq, Repr

/-- Builds the Loaded display from the current ticker prop and the stored
    artifact, mirroring the JSX below the two early returns. -/
def mkLoaded (t : String) (a : DetailArtifact) : LoadedView :=
  { ticker := t
  , score := a.indicators.lookup "score_0_100"
  , explanation := a.indicators.lookup "explanation"
  , lastClose := a.indicators.lookup "last_close"
  , avgVol := a.indicators.lookup "avg_vol20"
  , listing := a.indicators.map (fun kv => (kv.1, jsString kv.2)) }

/-- The three mutually exclusive renderings of TickerDetail. -/
inductive DetailView
  | noSelection
  | loading (t : String)
  | loaded (v : LoadedView)
deriving DecidableEq, Repr

/-- The render function of TickerDetail: the two early returns
    if(!ticker) and if(!data), then the Loaded JSX. -/
def renderDetail (s : DetailState) : DetailView :=
  match s.ticker with
  | none => .noSelection
  | some t =>
    if t = "" then .noSelection
    else
      match s.data with
      | none => .loading t
      | some (_, a) => .loaded (mkLoaded t a)

/- ---------------------------------------------------------------- -/
/- TickerDetail.jsx: chart effect lifecycle.                        -/
/- ---------------------------------------------------------------- -/

/-- Bookkeeping for chart objects created by the chart effect of one
    mounted TickerDetail. live lists the identifiers of charts created
    and not yet destroyed; cleanup is the chart the currently registered
    cleanup closure will destroy (none when the last effect run returned
    early and registered no cleanup); nextId counts charts ever created
    and doubles as the identifier of the next one. -/
structure ChartState where
  live : List Nat
  cleanup : Option Nat
  nextId : Nat
deriving DecidableEq, Repr

/-- Chart bookkeeping at mount: nothing created, no cleanup registered. -/
def chartInit : ChartState := ⟨[], none, 0⟩

/-- Invoking the previously registered cleanup, as React does before each
    effect re-run and at unmount: it destroys exactly the chart the
    closure captured (the return ()=>chart.destroy() line). -/
def runCleanup (s : ChartState) : List Nat :=
  match s.cleanup with
  | some c => s.live.erase c
  | none => s.live

/-- One run of the chart effect (deps are data and ticker). React first
    invokes the previous cleanup; then the effect body returns early
    without creating a chart when data is null, when data.history is
    absent, or when the canvas context lookup fails (hasCtx false), and
    otherwise constructs one new Chart and registers a cleanup that
    destroys it. -/
def effectRun (s : ChartState) (data : Option DetailArtifact) (hasCtx : Bool) : ChartState :=
  match data with
  | some a =>
    match a.history with
    | some _ =>
      if hasCtx then ⟨runCleanup s ++ [s.nextId], some s.nextId, s.nextId + 1⟩
      else ⟨runCleanup s, none, s.nextId⟩
    | none => ⟨runCleanup s, none, s.nextId⟩
  | none => ⟨runCleanup s, none, s.nextId⟩

/-- Folding an arbitrary sequence of effect runs from the mount state. -/
def chartRunAll (inputs : List (Option DetailArtifact × Bool)) : ChartState :=
  inputs.foldl (fun s p => effectRun s p.1 p.2) chartInit

/-- The invariant maintained by the chart effect: either no chart is live
    and no cleanup is registered, or exactly the chart the registered
    cleanup will destroy is live. -/
def ChartInv (s : ChartState) : Prop :=
  (s.live = [] ∧ s.cleanup = none) ∨ ∃ c, s.live = [c] ∧ s.cleanup = some c

/- ---------------------------------------------------------------- -/
/- App.jsx: application shell.                                      -/
/- ---------------------------------------------------------------- -/

/-- State of the application shell: the summary artifact (null until its
    fetch resolves), the current selection (null initially), and the
    console.error log. -/
structure AppState where
  summary : Option SummaryArtifact
  selected : Option String
  log : List String
deriving DecidableEq, Repr

/-- Events acting on the shell: the summary fetch resolves or fails, or
    the table invokes onSelect with a row ticker. -/
inductive AppEvent
  | summaryResolve (a : SummaryArtifact)
  | summaryFail
  | selectRow (t : String)
deriving DecidableEq, Repr

/-- Initial shell state: useState(null) twice. -/
def appInit : AppState := ⟨none, none, []⟩

/-- One step of the shell. The summary failure handler only logs, the
    resolution handler stores the whole parsed artifact, onSelect stores
    the clicked ticker. -/
def appStep (s : AppState) : AppEvent → AppState
  | .summaryResolve a => { s with summary := some a }
  | .summaryFail => { s with log := s.log ++ ["summary fetch error"] }
  | .selectRow t => { s with selected := some t }

/-- The header timestamp span: the JSX expression data?.generated_at,
    which React renders as nothing (blank) while data is null. -/
def headerTimestamp (s : AppState) : String :=
  match s.summary with
  | none => ""
  | some a => a.generated_at

/-- The data prop the shell passes to the table: data?.top || []. -/
def tableRows (s : AppState) : List RankedEntry :=
  match s.summary with
  | none => []
  | some a => a.top

/-- Everything the shell renders that depends on its state: the header
    timestamp, the table data prop, and the ticker prop of the detail. -/
def appRender (s : AppState) : String × List RankedEntry × Option String :=
  (headerTimestamp s, tableRows s, s.selected)

/-- Number of times an effect runs across a sequence of renders whose
    per-render dependency values are given, continuing after a first run
    on the value prev: React re-runs the effect exactly when the value
    differs from the previous render. -/
def effectRunsFrom {D : Type} [DecidableEq D] (prev : D) : List D → Nat
  | [] => 0
  | d :: ds => (if d = prev then 0 else 1) + effectRunsFrom d ds

/-- Number of times an effect runs across a sequence of renders with the
    given per-render dependency values: once on the first render, then
    once per change. The summary effect of the shell has an empty
    dependency array, a constant, so its per-render value is Unit. -/
def effectRuns {D : Type} [DecidableEq D] : List D → Nat
  | [] => 0
  | d :: ds => 1 + effectRunsFrom d ds

/- ---------------------------------------------------------------- -/
/- Concrete sample data used by witnesses and counterexamples.      -/
/- ---------------------------------------------------------------- -/

/-- Sample summary row resembling the scenario row of the spec. -/
def sampleEntry1 : RankedEntry :=
  ⟨"AAPL", 80, 190, 50000000, some "strong"⟩

/-- Second sample summary row. -/
def sampleEntry2 : RankedEntry :=
  ⟨"MSFT", 75, 410, 30000000, some "steady"⟩

/-- Sample summary artifact. -/
def sampleSummary : SummaryArtifact :=
  ⟨"2024-01-01", [sampleEntry1, sampleEntry2]⟩

/-- Sample detail artifact for ticker A. -/
def artA : DetailArtifact :=
  ⟨some [⟨"2024-01-01", 188⟩, ⟨"2024-01-02", 190⟩],
   [("score_0_100", .num 80), ("explanation", .str "strong")]⟩

/-- Sample detail artifact for ticker B, distinct from artA. -/
def artB : DetailArtifact :=
  ⟨some [⟨"2024-01-01", 400⟩],
   [("score_0_100", .num 75), ("explanation", .str "steady")]⟩

/-- Sample detail artifact without a history field. -/
def noHistArt : DetailArtifact :=
  ⟨none, [("score_0_100", .num 42), ("last_close", .num 10)]⟩

/-- Event trace for the stale-fetch race: ticker A is selected, then B
    before the fetch for A settles; the fetch for B resolves first and
    the fetch for A resolves last. -/
def c1trace : List DetailEvent :=
  [.select (some "A"), .select (some "B"), .resolve "B" artB, .resolve "A" artA]

/-- Final component state after the stale-fetch race. -/
def c1final : DetailState := c1trace.foldl detailStep detailInit

/-- Event trace for a ticker change after a completed load: A selected,
    the artifact for A arrives, then B is selected. -/
def c2trace : List DetailEvent :=
  [.select (some "A"), .resolve "A" artA, .select (some "B")]

/-- Component state immediately after the ticker change of c2trace. -/
def c2final : DetailState := c2trace.foldl detailStep detailInit

/-- A state with ticker A selected and the artifact for A loaded. -/
def stateA : DetailState := ⟨some "A", some ("A", artA), [], []⟩

/- ---------------------------------------------------------------- -/
/- Helper lemmas.                                                   -/
/- ---------------------------------------------------------------- -/

/-- The filter predicate of TopTable holds exactly when the filter text
    is empty or its lowercasing occurs in the lowercased row text. -/
theorem matchesFilter_iff (q : String) (r : RankedEntry) :
    matchesFilter q r = true ↔
      (q = "" ∨ (jsToLower q).toList <:+:
        (jsToLower (r.ticker ++ " " ++ r.explanation.getD "")).toList) := by
  unfold matchesFilter jsIncludes
  by_cases h : q = ""
  · simp [h]
  · simp [h]

/-- Membership in a slice implies membership in the sliced list. -/
theorem mem_of_mem_jsSlice0 {α : Type} {l : List α} {e : Int} {a : α}
    (h : a ∈ jsSlice0 l e) : a ∈ l := by
  unfold jsSlice0 at h
  split at h <;> exact List.mem_of_mem_take h

/-- With an empty filter text every row survives the filter stage. -/
theorem filteredRows_empty_q (data : Option (List RankedEntry)) :
    filteredRows data "" = data.getD [] := by
  unfold filteredRows
  exact List.filter_eq_self.mpr (fun a _ => by simp [matchesFilter])

/-- A slice taken with the Top-N count zero is empty. -/
theorem shownRows_zero (data : Option (List RankedEntry)) (q : String) :
    shownRows data q 0 = [] := by
  unfold shownRows jsSlice0
  rw [if_neg (by omega)]
  simp

/-- The chart-effect invariant implies the registered cleanup empties the
    live list. -/
theorem runCleanup_of_inv (s : ChartState) (h : ChartInv s) :
    runCleanup s = [] := by
  rcases h with ⟨h1, h2⟩ | ⟨c, h1, h2⟩
  · unfold runCleanup
    rw [h2]
    exact h1
  · unfold runCleanup
    rw [h2, h1]
    exact List.erase_cons_head c []

/-- One run of the chart effect preserves the chart-effect invariant. -/
theorem effectRun_inv (s : ChartState) (d : Option DetailArtifact) (c : Bool)
    (h : ChartInv s) : ChartInv (effectRun s d c) := by
  have hl := runCleanup_of_inv s h
  cases d with
  | none => exact Or.inl ⟨by simp [effectRun, hl], by simp [effectRun]⟩
  | some a =>
    cases ha : a.history with
    | none =>
      exact Or.inl ⟨by simp [effectRun, ha, hl], by simp [effectRun, ha]⟩
    | some hh =>
      cases c with
      | false =>
        exact Or.inl ⟨by simp [effectRun, ha, hl], by simp [effectRun, ha]⟩
      | true =>
        exact Or.inr ⟨s.nextId, by simp [effectRun, ha, hl], by simp [effectRun, ha]⟩

/-- Folding chart-effect runs from any state preserves the invariant. -/
theorem chartFold_inv (inputs : List (Option DetailArtifact × Bool)) :
    ∀ s : ChartState, ChartInv s →
      ChartInv (inputs.foldl (fun st p => effectRun st p.1 p.2) s) := by
  induction inputs with
  | nil => exact fun s hs => hs
  | cons p ps ih => exact fun s hs => ih _ (effectRun_inv s p.1 p.2 hs)

/-- An effect whose dependency value never changes does not re-run. -/
theorem effectRunsFrom_replicate_unit (k : Nat) :
    effectRunsFrom Unit.unit (List.replicate k Unit.unit) = 0 := by
  induction k with
  | zero => rfl
  | succ m ih => simp [List.replicate_succ, effectRunsFrom, ih]

/- ---------------------------------------------------------------- -/
/- Claim theorems.                                                  -/
/- ---------------------------------------------------------------- -/

/-- C1: the claim states that a detail fetch result for ticker A is never
    applied to the displayed state once ticker B has been selected. The
    code has no staleness guard in its fetch effect, so on the concrete
    race trace c1trace (select A, select B before the fetch for A
    settles, the fetch for B resolves, then the fetch for A resolves)
    the component ends with ticker B selected while displaying the
    artifact produced by the fetch for A. This theorem evaluates the
    embedded component on that failing trace. -/
theorem c1_stale_overwrite :
    c1final.ticker = some "B"
    ∧ c1final.data = some ("A", artA)
    ∧ renderDetail c1final = .loaded (mkLoaded "B" artA)
    ∧ artA ≠ artB := by
  refine ⟨rfl, rfl, rfl, by decide⟩

/-- C2 counterexample: the claim states that every ticker change puts the
    Detail View in the Loading state with the previous artifact
    discarded before the new Loaded state can be shown. On the concrete
    trace c2trace (load A fully, then select B) the state immediately
    after the change still holds the artifact for A and renders the
    Loaded display, not Loading. -/
theorem c2_counterexample :
    c2final.ticker = some "B"
    ∧ c2final.data = some ("A", artA)
    ∧ renderDetail c2final = .loaded (mkLoaded "B" artA) := by
  refine ⟨rfl, rfl, rfl⟩

/-- C2 amended: on every change to a different non-empty ticker a new
    fetch is issued, but the previously fetched artifact is retained
    (still displayed) rather than discarded; when any detail fetch
    resolves its artifact replaces the stored one wholesale, with no
    merge. Loading is shown only while no artifact has been received. -/
theorem c2_amended (s : DetailState) (t : String)
    (hch : some t ≠ s.ticker) (ht : t ≠ "") :
    (detailStep s (.select (some t))).pending = s.pending ++ [t]
    ∧ (detailStep s (.select (some t))).data = s.data
    ∧ (detailStep s (.select (some t))).ticker = some t
    ∧ ∀ (s2 : DetailState) (u : String) (b : DetailArtifact),
        (detailStep s2 (.resolve u b)).data = some (u, b) := by
  have hc : some t ≠ s.ticker ∧ tickerTruthy (some t) = true :=
    ⟨hch, by simp [tickerTruthy, ht]⟩
  refine ⟨?_, ?_, ?_, fun s2 u b => rfl⟩ <;>
    simp [detailStep, if_pos hc]

/-- C2 witness: the amended claim evaluated at a state where the ticker A
    artifact is loaded and the user selects B. -/
theorem c2_amended_witness :
    (some "B" ≠ stateA.ticker)
    ∧ ("B" ≠ "")
    ∧ (detailStep stateA (.select (some "B"))).pending = stateA.pending ++ ["B"]
    ∧ (detailStep stateA (.select (some "B"))).data = stateA.data
    ∧ (detailStep stateA (.select (some "B"))).ticker = some "B"
    ∧ (detailStep detailInit (.resolve "A" artA)).data = some ("A", artA) := by
  have h := c2_amended stateA "B" (by decide) (by decide)
  exact ⟨by decide, by decide, h.1, h.2.1, h.2.2.1, h.2.2.2 detailInit "A" artA⟩

/-- C3: across every sequence of chart-effect runs in one mounted Detail
    View, at most one chart instance is live at any point: the cleanup
    returned by each creating run destroys its chart before or as the
    next run creates a new one. Quantifying over all input sequences
    covers every reachable point, since each point is the fold of some
    prefix of the run history. -/
theorem c3_single_chart (inputs : List (Option DetailArtifact × Bool)) :
    (chartRunAll inputs).live.length ≤ 1 := by
  have h := chartFold_inv inputs chartInit (Or.inl ⟨rfl, rfl⟩)
  unfold chartRunAll
  rcases h with ⟨h1, _⟩ | ⟨c, h1, _⟩ <;> rw [h1] <;> simp

/-- C4: the filtering rule of the Ranking Table View. A row survives the
    filter stage exactly when it occurs in the provided data and the
    filter text is empty or its lowercasing is a substring of the
    lowercased concatenation of the row ticker, one space, and the row
    explanation (missing explanation read as the empty string); and
    every row actually shown in the table body (after truncation, for
    any Top-N value) satisfies that condition, so no non-matching row is
    ever shown. -/
theorem c4_filter_rule (data : Option (List RankedEntry)) (q : String)
    (r : RankedEntry) (n : Int) :
    (r ∈ filteredRows data q ↔
      r ∈ data.getD [] ∧ (q = "" ∨ (jsToLower q).toList <:+:
        (jsToLower (r.ticker ++ " " ++ r.explanation.getD "")).toList))
    ∧ (r ∈ shownRows data q n →
      (q = "" ∨ (jsToLower q).toList <:+:
        (jsToLower (r.ticker ++ " " ++ r.explanation.getD "")).toList)) := by
  constructor
  · rw [filteredRows, List.mem_filter, matchesFilter_iff]
  · intro hm
    have h1 : r ∈ filteredRows data q := mem_of_mem_jsSlice0 hm
    rw [filteredRows, List.mem_filter, matchesFilter_iff] at h1
    exact h1.2

/-- C4 witness: the sample row matching the filter text aap is shown and
    satisfies the match condition. -/
theorem c4_filter_rule_witness :
    sampleEntry1 ∈ shownRows (some [sampleEntry1, sampleEntry2]) "aap" 50
    ∧ ("aap" = "" ∨ (jsToLower "aap").toList <:+:
        (jsToLower (sampleEntry1.ticker ++ " " ++ sampleEntry1.explanation.getD "")).toList) := by
  refine ⟨by decide, ?_⟩
  exact (c4_filter_rule (some [sampleEntry1, sampleEntry2]) "aap" sampleEntry1 50).2
    (by decide)

/-- C5 counterexample: the claim states that for every row limit N the
    number of shown rows is at most min(N, number of filtered rows). At
    the user-enterable value N = -1 with two filtered rows, slice(0, -1)
    shows one row, exceeding min(-1, 2) = -1, so the claim as stated is
    false. -/
theorem c5_counterexample :
    ¬ (((shownRows (some [sampleEntry1, sampleEntry2]) "" (-1)).length : Int)
        ≤ min (-1 : Int) ((filteredRows (some [sampleEntry1, sampleEntry2]) "").length : Int)) := by
  decide

/-- C5 amended: for every filter text and every row limit the shown rows
    are a prefix of the filtered sequence in original order; for every
    non-negative row limit N the number of shown rows is at most
    min(N, number of filtered rows); and with an empty filter and a row
    limit at least the sequence length every entry is shown in original
    order. (The original claim also asserted the count bound for
    negative N, which fails: slice with a negative end keeps all but the
    last entries.) -/
theorem c5_amended (data : Option (List RankedEntry)) (q : String) (n : Int) :
    shownRows data q n <+: filteredRows data q
    ∧ (0 ≤ n → ((shownRows data q n).length : Int)
        ≤ min n ((filteredRows data q).length : Int))
    ∧ (q = "" → ((data.getD []).length : Int) ≤ n →
        shownRows data q n = data.getD []) := by
  refine ⟨?_, ?_, ?_⟩
  · unfold shownRows jsSlice0
    split
    · exact ⟨_, List.take_append_drop _ _⟩
    · exact ⟨_, List.take_append_drop _ _⟩
  · intro hn
    unfold shownRows jsSlice0
    rw [if_neg (by omega), List.length_take, Nat.cast_min,
        Int.toNat_of_nonneg hn]
  · intro hq hlen
    subst hq
    unfold shownRows jsSlice0
    rw [filteredRows_empty_q, if_neg (by omega : ¬ n < 0)]
    exact List.take_of_length_le (by omega)

/-- C5 witness: the amended claim evaluated on the two sample rows with
    an empty filter and row limit 5. -/
theorem c5_amended_witness :
    ((0 : Int) ≤ 5)
    ∧ ((((some [sampleEntry1, sampleEntry2] : Option (List RankedEntry)).getD []).length : Int) ≤ 5)
    ∧ shownRows (some [sampleEntry1, sampleEntry2]) "" 5
        <+: filteredRows (some [sampleEntry1, sampleEntry2]) ""
    ∧ (((shownRows (some [sampleEntry1, sampleEntry2]) "" 5).length : Int)
        ≤ min (5 : Int) ((filteredRows (some [sampleEntry1, sampleEntry2]) "").length : Int))
    ∧ shownRows (some [sampleEntry1, sampleEntry2]) "" 5
        = (some [sampleEntry1, sampleEntry2] : Option (List RankedEntry)).getD [] := by
  have h := c5_amended (some [sampleEntry1, sampleEntry2]) "" 5
  exact ⟨by decide, by decide, h.1, h.2.1 (by decide), h.2.2 rfl (by decide)⟩

/-- C6 counterexample: the claim states that every row limit N at most 0
    shows zero rows. At N = -1 with two rows present, slice(0, -1) keeps
    the first row, so a row is shown. -/
theorem c6_counterexample :
    ((-1 : Int) ≤ 0)
    ∧ shownRows (some [sampleEntry1, sampleEntry2]) "" (-1) = [sampleEntry1] := by
  decide

/-- C6 amended: empty or absent data gives an empty table body; the row
    limit 0 gives zero rows, as does a NaN limit produced by a
    non-numeric input coerced through Number (so such an input cannot
    crash the view, the slice treats it as 0); but a negative row limit
    N shows all filtered rows except the last -N, not zero rows. -/
theorem c6_amended (data : Option (List RankedEntry)) (q : String) (n : Int) :
    shownRows none q n = []
    ∧ shownRows (some []) q n = []
    ∧ shownRows data q 0 = []
    ∧ shownRowsNum data q none = []
    ∧ (n < 0 → shownRows data q n
        = (filteredRows data q).take
            (((filteredRows data q).length : Int) + n).toNat) := by
  refine ⟨?_, ?_, shownRows_zero data q, shownRows_zero data q, ?_⟩
  · unfold shownRows jsSlice0 filteredRows
    split <;> simp
  · unfold shownRows jsSlice0 filteredRows
    split <;> simp
  · intro hn
    unfold shownRows jsSlice0
    rw [if_pos hn]

/-- C6 witness: the amended claim evaluated on the two sample rows with
    row limit -1. -/
theorem c6_amended_witness :
    ((-1 : Int) < 0)
    ∧ shownRows none "" (-1) = []
    ∧ shownRows (some []) "" (-1) = []
    ∧ shownRows (some [sampleEntry1, sampleEntry2]) "" 0 = []
    ∧ shownRowsNum (some [sampleEntry1, sampleEntry2]) "" none = []
    ∧ shownRows (some [sampleEntry1, sampleEntry2]) "" (-1)
        = (filteredRows (some [sampleEntry1, sampleEntry2]) "").take
            (((filteredRows (some [sampleEntry1, sampleEntry2]) "").length : Int) + (-1)).toNat := by
  have h := c6_amended (some [sampleEntry1, sampleEntry2]) "" (-1)
  exact ⟨by decide, h.1, h.2.1, h.2.2.1, h.2.2.2.1, h.2.2.2.2 (by decide)⟩

/-- C7: when a summary or detail fetch fails (network error or a body
    that does not parse, both landing in the catch handler), the failure
    is logged and the consuming component keeps its prior displayed
    state: the detail component keeps its ticker, data and rendering
    unchanged, and the shell keeps its summary, selection and rendering
    unchanged; the handlers are total, so no exception reaches the
    render path. -/
theorem c7_fetch_failure (s : DetailState) (t : String) (a : AppState) :
    (detailStep s (.fail t)).data = s.data
    ∧ (detailStep s (.fail t)).ticker = s.ticker
    ∧ renderDetail (detailStep s (.fail t)) = renderDetail s
    ∧ (detailStep s (.fail t)).log = s.log ++ ["fetch error " ++ t]
    ∧ (appStep a .summaryFail).summary = a.summary
    ∧ (appStep a .summaryFail).selected = a.selected
    ∧ appRender (appStep a .summaryFail) = appRender a
    ∧ (appStep a .summaryFail).log = a.log ++ ["summary fetch error"] := by
  exact ⟨rfl, rfl, rfl, rfl, rfl, rfl, rfl, rfl⟩

/-- C8: whenever the ticker prop is not truthy (absent or empty), the
    Detail View renders the select-a-ticker prompt regardless of any
    stored artifact, and a prop change to such a value issues no fetch. -/
theorem c8_no_selection (s : DetailState) (t : Option String)
    (h : tickerTruthy t = false) :
    renderDetail { s with ticker := t } = .noSelection
    ∧ (detailStep s (.select t)).pending = s.pending
    ∧ renderDetail (detailStep s (.select t)) = .noSelection := by
  have hif : ¬ (t ≠ s.ticker ∧ tickerTruthy t = true) := by
    rintro ⟨-, h2⟩
    rw [h] at h2
    cases h2
  have hstep : detailStep s (.select t) = { s with ticker := t } := by
    simp [detailStep, if_neg hif]
  have hrend : renderDetail { s with ticker := t } = .noSelection := by
    cases t with
    | none => rfl
    | some u =>
      have hu : u = "" := by simpa [tickerTruthy] using h
      subst hu
      rfl
  exact ⟨hrend, by rw [hstep], by rw [hstep]; exact hrend⟩

/-- C8 witness: with the artifact for A loaded, clearing the ticker shows
    the prompt and issues no fetch. -/
theorem c8_no_selection_witness :
    tickerTruthy none = false
    ∧ renderDetail { stateA with ticker := none } = .noSelection
    ∧ (detailStep stateA (.select none)).pending = stateA.pending
    ∧ renderDetail (detailStep stateA (.select none)) = .noSelection := by
  have h := c8_no_selection stateA none rfl
  exact ⟨rfl, h.1, h.2.1, h.2.2⟩

/-- C9: the summary effect of the shell has a constant (empty) dependency
    list, so over any mount consisting of at least one render it runs
    exactly once; the selection starts as none; and the header timestamp
    is blank until the summary artifact arrives and equals its
    generated_at afterwards. -/
theorem c9_app_shell (n : Nat) (a : SummaryArtifact) (h : 0 < n) :
    effectRuns (List.replicate n Unit.unit) = 1
    ∧ appInit.selected = none
    ∧ headerTimestamp appInit = ""
    ∧ headerTimestamp (appStep appInit (.summaryResolve a)) = a.generated_at := by
  refine ⟨?_, rfl, rfl, rfl⟩
  cases n with
  | zero => omega
  | succ m =>
    simp [List.replicate_succ, effectRuns, effectRunsFrom_replicate_unit]

/-- C9 witness: a mount with two renders still fetches the summary once,
    and the header shows the sample timestamp after the artifact loads. -/
theorem c9_app_shell_witness :
    0 < 2
    ∧ effectRuns (List.replicate 2 Unit.unit) = 1
    ∧ appInit.selected = none
    ∧ headerTimestamp appInit = ""
    ∧ headerTimestamp (appStep appInit (.summaryResolve sampleSummary))
        = sampleSummary.generated_at := by
  have h := c9_app_shell 2 sampleSummary (by decide)
  exact ⟨by decide, h.1, h.2.1, h.2.2.1, h.2.2.2⟩

/-- C10: a fetched artifact without a history field still renders the
    full Loaded display (heading, score, explanation, last close,
    average volume and the complete indicator listing, all read off by
    mkLoaded), while the chart effect returns before constructing a
    chart: it creates nothing, registers no cleanup, and only the
    previously registered cleanup acts on the live charts; the guard is
    an early return, so the chart-drawing step raises no error. -/
theorem c10_missing_history (t : String) (d : DetailArtifact)
    (pend lg : List String) (s : ChartState) (c : Bool)
    (ht : t ≠ "") (hh : d.history = none) :
    renderDetail ⟨some t, some (t, d), pend, lg⟩ = .loaded (mkLoaded t d)
    ∧ (effectRun s (some d) c).nextId = s.nextId
    ∧ (effectRun s (some d) c).cleanup = none
    ∧ (effectRun s (some d) c).live = runCleanup s := by
  refine ⟨?_, ?_, ?_, ?_⟩
  · simp [renderDetail, ht]
  · simp [effectRun, hh]
  · simp [effectRun, hh]
  · simp [effectRun, hh]

/-- C10 witness: the claim evaluated on the sample artifact that lacks a
    history field. -/
theorem c10_missing_history_witness :
    ("XXX" ≠ "")
    ∧ noHistArt.history = none
    ∧ renderDetail ⟨some "XXX", some ("XXX", noHistArt), [], []⟩
        = .loaded (mkLoaded "XXX" noHistArt)
    ∧ (effectRun chartInit (some noHistArt) true).nextId = chartInit.nextId
    ∧ (effectRun chartInit (some noHistArt) true).cleanup = none
    ∧ (effectRun chartInit (some noHistArt) true).live = runCleanup chartInit := by
  have h := c10_missing_history "XXX" noHistArt [] [] chartInit true (by decide) rfl
  exact ⟨by decide, rfl, h.1, h.2.1, h.2.2.1, h.2.2.2⟩
